import Mathlib

/-!
Verification of the catalog cache manager and streaming proxy of the
aws-streaming-poc repository.

The catalog cache manager is embedded from
`src/server/services/content-service.ts` (`refreshCache`,
`getFeaturedContent`, `getVideoById`, `requestTranscodeJob`), and the
streaming proxy from the `/api/content/stream/:key` route of the Express
routes file (`src/unnamed/part_000`).

External collaborators (the S3 listing adapter `listVideos`, the key parser
`extractMovieInfo`, the URL signers `getSignedVideoUrl` /
`cloudFrontService.getSignedUrl`, the DynamoDB adapter, `node-fetch`) live in
service modules that are not part of the analysed sources; the spec treats
them as pure external read functions, so the embedding takes their outcomes
as parameters (a thrown exception is `Except.error ()`, a returned value is
`Except.ok`).  Time (`Date.now()`) is a parameter `now`.

JavaScript truthiness of the values that actually flow through this code
(strings, numbers, possibly-absent fields) is modelled explicitly by the
`jsOr*` helpers below: an absent field is `none`, and the empty string / the
number 0 are falsy.
-/

/-- JS `s || d` for a plain string `s`: the empty string is falsy. -/
def jsOrStr (s d : String) : String :=
  if s = "" then d else s

/-- JS `s || d` for a possibly-absent string field: `undefined`/`null` and
`""` are falsy. -/
def jsOrOptStr (s : Option String) (d : String) : String :=
  match s with
  | none => d
  | some s => if s = "" then d else s

/-- JS `n || d` for a possibly-absent number field: `undefined`/`null` and
`0` are falsy. -/
def jsOrOptNat (n : Option Nat) (d : Nat) : Nat :=
  match n with
  | none => d
  | some k => if k = 0 then d else k

/-- JS truthiness of a possibly-absent string (`undefined`, `null`, `""` are
falsy). -/
def isTruthyStr (s : Option String) : Bool :=
  match s with
  | none => false
  | some s => s ≠ ""

/-- One raw listing entry returned by the bulk-listing adapter
(`listVideos`): an object key and a presigned url. -/
structure S3File where
  key : String
  url : String
deriving DecidableEq, Repr, Inhabited

/-- The result of `extractMovieInfo(key)` when the key matches the naming
convention. -/
structure MovieInfo where
  id : String
  title : String
  genre : String
  fileType : String
deriving DecidableEq, Repr, Inhabited

/-- One `(type, key, url)` entry of a grouping-map value
(`movieMap.get(id).files`). -/
structure MovieFile where
  type : String
  key : String
  url : String
deriving DecidableEq, Repr, Inhabited

/-- One value of the transient grouping map `movieMap` built during a
refresh pass. -/
structure Movie where
  id : String
  title : String
  genre : String
  files : List MovieFile
deriving DecidableEq, Repr, Inhabited

/-- One row returned by the structured-record adapter (`getAllVideos` on
DynamoDB).  Fields other than `id` may be absent.  `createdAt` timestamps
are modelled as integers, with `none` covering both an absent and an empty
value. -/
structure DynamoVideo where
  id : String
  title : Option String
  description : Option String
  thumbnailKey : Option String
  videoKey : Option String
  genre : Option String
  releaseYear : Option Nat
  duration : Option Nat
  rating : Option String
  featured : Option Bool
  createdAt : Option Int
deriving DecidableEq, Repr, Inhabited

/-- The `ProcessedVideo` interface of content-service.ts: one merged
catalog entry. -/
structure ProcessedVideo where
  id : String
  title : String
  description : String
  thumbnailUrl : Option String
  videoUrl : Option String
  hlsUrl : String
  duration : Nat
  releaseYear : Nat
  genre : String
  rating : String
  featured : Bool
  category : String
  createdAt : Int
deriving DecidableEq, Repr, Inhabited

/-- The module-level mutable state of content-service.ts: `videosCache` and
`lastCacheRefresh`. -/
structure CacheState where
  videosCache : List ProcessedVideo
  lastCacheRefresh : Int
deriving DecidableEq, Repr, Inhabited

/-- `CACHE_TTL = 60 * 1000` milliseconds. -/
def CACHE_TTL : Int := 60 * 1000

/-- The outcomes of the external calls one `refreshCache` pass makes,
plus the current clock value.  `extract` is `extractMovieInfo`; `signUrl`
is `getSignedVideoUrl` (which may throw, or return a falsy value modelled
as `none`).  The best-effort DynamoDB mirror writes inside the S3 loop
(lines 103-124) are wrapped in their own try/catch, their failures are
swallowed and their results unused, so they have no effect on the cache
state and are not part of the state model. -/
structure RefreshEnv where
  now : Int
  s3Videos : Except Unit (List S3File)
  dynamoVideos : Except Unit (List DynamoVideo)
  extract : String → Option MovieInfo
  signUrl : String → Except Unit (Option String)

/-- The `s3Videos.forEach` grouping loop: insert one listing entry into the
grouping map (modelled as an insertion-ordered list of `Movie`). -/
def addS3File (acc : List Movie) (mi : MovieInfo) (f : S3File) : List Movie :=
  if acc.any (fun m => m.id = mi.id) then
    acc.map (fun m =>
      if m.id = mi.id then
        { m with files := m.files ++ [{ type := mi.fileType, key := f.key, url := f.url }] }
      else m)
  else
    acc ++ [{ id := mi.id, title := mi.title, genre := mi.genre,
              files := [{ type := mi.fileType, key := f.key, url := f.url }] }]

/-- The whole grouping phase: `movieMap` in insertion order
(`Array.from(movieMap.values())`).  Entries whose key `extractMovieInfo`
rejects are skipped (`if (!movieInfo) return`). -/
def buildMovieMap (extract : String → Option MovieInfo) (files : List S3File) : List Movie :=
  files.foldl (fun acc f =>
    match extract f.key with
    | none => acc
    | some mi => addS3File acc mi f) []

/-- Build one `ProcessedVideo` from an S3 grouping-map entry (lines 85-99).
`featured` is `movie.id === '1'`. -/
def mkS3Processed (now : Int) (m : Movie) (thumbnailFile : Option MovieFile)
    (videoFile : MovieFile) (videoUrl : Option String) : ProcessedVideo :=
  { id := m.id
    title := jsOrStr m.title "Untitled"
    description := m.genre ++ " movie: " ++ m.title
    thumbnailUrl := thumbnailFile.map (fun f => f.key)
    videoUrl := videoUrl
    hlsUrl := videoFile.key
    duration := 120
    releaseYear := 2023
    genre := jsOrStr m.genre "Unknown"
    rating := "PG-13"
    featured := m.id = "1"
    category := jsOrStr m.genre "General"
    createdAt := now }

/-- The `for (const movie of movieMap.values())` loop (lines 76-126):
groups without an `mp4` file are dropped; signing the video key may throw,
which aborts the whole pass. -/
def processMovies (now : Int) (signUrl : String → Except Unit (Option String)) :
    List Movie → Except Unit (List ProcessedVideo)
  | [] => .ok []
  | m :: rest =>
    let thumbnailFile := m.files.find? (fun f => f.type = "png")
    match m.files.find? (fun f => f.type = "mp4") with
    | none => processMovies now signUrl rest
    | some videoFile =>
      match (if videoFile.key ≠ "" then signUrl videoFile.key else .ok none) with
      | .error e => .error e
      | .ok videoUrl =>
        match processMovies now signUrl rest with
        | .error e => .error e
        | .ok vs => .ok (mkS3Processed now m thumbnailFile videoFile videoUrl :: vs)

/-- Build one `ProcessedVideo` from a DynamoDB row (lines 138-152). -/
def mkDynamoProcessed (now : Int) (dv : DynamoVideo) (videoUrl : Option String) :
    ProcessedVideo :=
  { id := dv.id
    title := jsOrOptStr dv.title "Untitled"
    description := jsOrOptStr dv.description "No description"
    thumbnailUrl := if isTruthyStr dv.thumbnailKey then some (dv.thumbnailKey.getD "") else none
    videoUrl := videoUrl
    hlsUrl := jsOrOptStr dv.videoKey ""
    duration := jsOrOptNat dv.duration 0
    releaseYear := jsOrOptNat dv.releaseYear 2023
    genre := jsOrOptStr dv.genre "Unknown"
    rating := jsOrOptStr dv.rating "PG-13"
    featured := dv.featured.getD false
    category := jsOrOptStr dv.genre "General"
    createdAt := dv.createdAt.getD now }

/-- The DynamoDB merge loop (lines 129-156): rows whose `id` already occurs
in the list built so far are skipped; otherwise the row is appended,
signing its video key first when that key is truthy (a signing throw aborts
the pass). -/
def processDynamo (now : Int) (signUrl : String → Except Unit (Option String))
    (acc : List ProcessedVideo) :
    List DynamoVideo → Except Unit (List ProcessedVideo)
  | [] => .ok acc
  | dv :: rest =>
    if acc.any (fun v => v.id = dv.id) then
      processDynamo now signUrl acc rest
    else
      match (if isTruthyStr dv.videoKey then signUrl (dv.videoKey.getD "") else .ok none) with
      | .error e => .error e
      | .ok videoUrl =>
        processDynamo now signUrl (acc ++ [mkDynamoProcessed now dv videoUrl]) rest

/-- The body of the `try` block of `refreshCache` (lines 44-162 up to the
cache assignment): fetch both sources, group, process, merge.  Any thrown
error short-circuits to `.error`. -/
def fetchAndMerge (env : RefreshEnv) : Except Unit (List ProcessedVideo) :=
  match env.s3Videos with
  | .error e => .error e
  | .ok s3 =>
    match env.dynamoVideos with
    | .error e => .error e
    | .ok dyn =>
      match processMovies env.now env.signUrl (buildMovieMap env.extract s3) with
      | .error e => .error e
      | .ok processed => processDynamo env.now env.signUrl processed dyn

/-- How many backing-source fetches one non-gated pass performs: `listVideos`
is awaited first, so when it throws `getAllVideos` is never reached. -/
def sourceCalls (env : RefreshEnv) : Nat :=
  match env.s3Videos with
  | .error _ => 1
  | .ok _ => 2

/-- `refreshCache` (lines 38-166).  Returns the new module state together
with the number of backing-source calls performed.  The TTL gate (line 40)
returns immediately with no I/O; a throw anywhere in the fetch/merge phase
is caught (line 163) leaving `videosCache` and `lastCacheRefresh`
untouched; on success both are replaced. -/
def refreshCache (env : RefreshEnv) (st : CacheState) : CacheState × Nat :=
  if env.now - st.lastCacheRefresh < CACHE_TTL ∧ 0 < st.videosCache.length then
    (st, 0)
  else
    match fetchAndMerge env with
    | .error _ => (st, sourceCalls env)
    | .ok merged => ({ videosCache := merged, lastCacheRefresh := env.now }, sourceCalls env)

/-- JS `parseInt` whitespace (the ASCII part of the WhiteSpace/LineTerminator
sets). -/
def isJsWhitespace (c : Char) : Bool :=
  c = ' ' ∨ c = Char.ofNat 9 ∨ c = Char.ofNat 10 ∨ c = Char.ofNat 13 ∨
  c = Char.ofNat 11 ∨ c = Char.ofNat 12

/-- Hexadecimal digit test. -/
def isHexDigitChar (c : Char) : Bool :=
  c.isDigit ∨ (Char.ofNat 97 ≤ c ∧ c ≤ Char.ofNat 102) ∨
  (Char.ofNat 65 ≤ c ∧ c ≤ Char.ofNat 70)

/-- Value of a hexadecimal digit. -/
def hexVal (c : Char) : Nat :=
  if c.isDigit then c.toNat - 48
  else if Char.ofNat 97 ≤ c ∧ c ≤ Char.ofNat 102 then c.toNat - 87
  else c.toNat - 55

/-- Value of a digit list in the given base, most significant first. -/
def digitsToNat (base : Nat) (ds : List Char) : Nat :=
  ds.foldl (fun a c => base * a + hexVal c) 0

/-- JS `parseInt(s)` with no radix argument: skip leading whitespace, read an
optional sign, then either a `0x`/`0X` hexadecimal literal or a maximal run
of decimal digits, ignoring any trailing characters; `NaN` (no digits at
all) is `none`. -/
def jsParseInt (s : String) : Option Int :=
  let l := s.data.dropWhile isJsWhitespace
  let signed : Int × List Char :=
    match l with
    | c :: r => if c = '-' then (-1, r) else if c = '+' then (1, l.tail) else (1, l)
    | [] => (1, [])
  let sign := signed.1
  let l2 := signed.2
  match l2 with
  | '0' :: c :: r =>
    if c = 'x' ∨ c = 'X' then
      let ds := r.takeWhile isHexDigitChar
      if ds.isEmpty then none else some (sign * (digitsToNat 16 ds : Nat))
    else
      some (sign * (digitsToNat 10 (l2.takeWhile Char.isDigit) : Nat))
  | _ =>
    let ds := l2.takeWhile Char.isDigit
    if ds.isEmpty then none else some (sign * (digitsToNat 10 ds : Nat))

/-- The `Video` object the query functions build from a `ProcessedVideo`
(lines 180-194, 216-230, 262-276): `parseInt` of the string id (`none` is
`NaN`), and `null` urls replaced by `''`. -/
structure VideoOut where
  id : Option Int
  title : String
  description : String
  thumbnailUrl : String
  videoUrl : String
  hlsUrl : String
  duration : Nat
  releaseYear : Nat
  genre : String
  rating : String
  featured : Bool
  category : String
  createdAt : Int
deriving DecidableEq, Repr, Inhabited

/-- The repeated `ProcessedVideo` → `Video` conversion. -/
def toVideo (v : ProcessedVideo) : VideoOut :=
  { id := jsParseInt v.id
    title := v.title
    description := v.description
    thumbnailUrl := v.thumbnailUrl.getD ""
    videoUrl := v.videoUrl.getD ""
    hlsUrl := v.hlsUrl
    duration := v.duration
    releaseYear := v.releaseYear
    genre := v.genre
    rating := v.rating
    featured := v.featured
    category := v.category
    createdAt := v.createdAt }

/-- The `FeaturedContent` payload; the source field `match` is a Lean
keyword and is called `matchPercent` here. -/
structure FeaturedContent where
  video : VideoOut
  matchPercent : Nat
deriving DecidableEq, Repr, Inhabited

/-- `getFeaturedContent` (lines 169-200): refresh the cache, pick the first
video flagged `featured` or else `videosCache[0]`, and throw
(`'No videos available'`) when neither exists. -/
def getFeaturedContent (env : RefreshEnv) (st : CacheState) :
    Except Unit FeaturedContent × CacheState :=
  let st1 := (refreshCache env st).1
  match st1.videosCache.find? (fun v => v.featured) with
  | some v => (.ok { video := toVideo v, matchPercent := 95 }, st1)
  | none =>
    match st1.videosCache.head? with
    | some v => (.ok { video := toVideo v, matchPercent := 95 }, st1)
    | none => (.error (), st1)

/-- `getVideoById` (lines 255-279): refresh the cache, return the first
cached video with `parseInt(v.id) === videoId`, else `null`. -/
def getVideoById (env : RefreshEnv) (videoId : Int) (st : CacheState) :
    Option VideoOut × CacheState :=
  let st1 := (refreshCache env st).1
  match st1.videosCache.find? (fun v => jsParseInt v.id = some videoId) with
  | none => (none, st1)
  | some v => (some (toVideo v), st1)

/-- External outcomes for one `requestTranscodeJob` call: the clock, the
`NODE_ENV === 'development'` flag, `extractMovieInfo`, `getSignedVideoUrl`,
the outcome of the `putItem` mirror write, and the value
`Math.floor(Math.random() * 10000).toString()` would produce. -/
structure IngestEnv where
  now : Int
  devMode : Bool
  extract : String → Option MovieInfo
  signUrl : String → Except Unit (Option String)
  putItemResult : Except Unit Unit
  randomId : String

/-- The JSON payload `requestTranscodeJob` resolves with: `dev := true` marks
the development-mode catch branch, which carries no `videoId`. -/
structure IngestResult where
  success : Bool
  videoId : Option String
  dev : Bool
deriving DecidableEq, Repr, Inhabited

/-- `requestTranscodeJob` (lines 379-441): derive an id from the key (or the
random fallback), sign the key, push one new `ProcessedVideo` onto the live
cache (no TTL gate involved), then — only outside development mode — mirror
it to DynamoDB with `putItem`.  A throw is caught at the end: in
development mode it becomes a success-shaped no-op response, otherwise it
is rethrown. -/
def requestTranscodeJob (env : IngestEnv) (title description s3Key : String)
    (st : CacheState) : Except Unit IngestResult × CacheState :=
  let movieInfo := env.extract s3Key
  let id := jsOrOptStr (movieInfo.map (fun mi => mi.id)) env.randomId
  match env.signUrl s3Key with
  | .error e =>
    if env.devMode then (.ok { success := true, videoId := none, dev := true }, st)
    else (.error e, st)
  | .ok videoUrl =>
    let newVideo : ProcessedVideo :=
      { id := id
        title := title
        description := description
        thumbnailUrl := none
        videoUrl := videoUrl
        hlsUrl := s3Key
        duration := 0
        releaseYear := 2023
        genre := jsOrOptStr (movieInfo.map (fun mi => mi.genre)) "Unknown"
        rating := "NR"
        featured := false
        category := jsOrOptStr (movieInfo.map (fun mi => mi.genre)) "Uploads"
        createdAt := env.now }
    let st1 : CacheState := { st with videosCache := st.videosCache ++ [newVideo] }
    if env.devMode then
      (.ok { success := true, videoId := some id, dev := false }, st1)
    else
      match env.putItemResult with
      | .ok _ => (.ok { success := true, videoId := some id, dev := false }, st1)
      | .error e => (.error e, st1)

/-- Uppercase hexadecimal digit of a value below 16. -/
def hexDigitUpper (n : Nat) : Char :=
  if n < 10 then Char.ofNat (48 + n) else Char.ofNat (55 + n)

/-- Model of `decodeURIComponent` restricted to single-byte (ASCII) escape
sequences: `%XY` with `XY < 0x80` becomes the character with that code;
a malformed escape, or a multi-byte (non-ASCII) sequence, is a thrown
`URIError`, modelled as `none`.  All keys this system handles are ASCII. -/
def percentDecodeList : List Char → Option (List Char)
  | [] => some []
  | c :: rest =>
    if c = '%' then
      match rest with
      | h :: l :: rest2 =>
        if isHexDigitChar h ∧ isHexDigitChar l then
          let n := 16 * hexVal h + hexVal l
          if n < 128 then (percentDecodeList rest2).map (fun t => Char.ofNat n :: t)
          else none
        else none
      | _ => none
    else (percentDecodeList rest).map (fun t => c :: t)

/-- The unreserved characters `encodeURIComponent` leaves intact:
alphanumerics and `- _ . ! ~ * ' ( )` (the quote written as code 39). -/
def isUnreserved (c : Char) : Bool :=
  c.isAlphanum ∨ c = '-' ∨ c = '_' ∨ c = '.' ∨ c = '!' ∨ c = '~' ∨
  c = '*' ∨ c = Char.ofNat 39 ∨ c = '(' ∨ c = ')'

/-- Model of `encodeURIComponent` on ASCII characters: unreserved characters
pass through, everything else becomes `%XY` with uppercase hex digits. -/
def percentEncodeChar (c : Char) : List Char :=
  if isUnreserved c then [c]
  else ['%', hexDigitUpper (c.toNat / 16), hexDigitUpper (c.toNat % 16)]

/-- `encodeURIComponent` over a whole character list. -/
def percentEncodeList : List Char → List Char
  | [] => []
  | c :: rest => percentEncodeChar c ++ percentEncodeList rest

/-- String-level `decodeURIComponent` (ASCII model). -/
def jsDecodeURIComponent (s : String) : Option String :=
  (percentDecodeList s.data).map (fun l => String.mk l)

/-- String-level `encodeURIComponent` (ASCII model). -/
def jsEncodeURIComponent (s : String) : String :=
  String.mk (percentEncodeList s.data)

/-- The stream route's key decoding (part_000 lines 370-374): decode once;
if the result still contains `'%'`, decode once more; a `URIError` escapes
to the route's outer catch. -/
def decodeStreamKey (rawKey : String) : Option String :=
  match jsDecodeURIComponent rawKey with
  | none => none
  | some decodedKey =>
    if decodedKey.data.contains '%' then jsDecodeURIComponent decodedKey
    else some decodedKey

/-- The characters since the last dot: recursion for `extOf`. -/
def extChars : List Char → List Char → List Char
  | [], acc => acc
  | c :: rest, acc => if c = '.' then extChars rest [] else extChars rest (acc ++ [c])

/-- `finalKey.split('.').pop()?.toLowerCase()`: the part after the last dot
(the whole string when there is no dot), lowercased. -/
def extOf (key : String) : String :=
  String.mk ((extChars key.data []).map Char.toLower)

/-- The fixed extension → content-type table of the stream route. -/
def contentTypeFor (ext : String) : String :=
  if ext = "png" then "image/png"
  else if ext = "jpg" ∨ ext = "jpeg" then "image/jpeg"
  else if ext = "mp4" then "video/mp4"
  else if ext = "m3u8" then "application/vnd.apple.mpegurl"
  else if ext = "ts" then "video/mp2t"
  else "application/octet-stream"

/-- What one upstream `fetch` resolved with (node-fetch resolves on any HTTP
status and only rejects on transport failure): status, the headers the
route reads, whether a body stream is present, and the body text (echoed on
final-tier failures). -/
structure UpstreamResponse where
  status : Nat
  contentType : Option String
  contentRange : Option String
  contentLength : Option String
  hasBody : Bool
  bodyText : String
deriving DecidableEq, Repr, Inhabited

/-- External outcomes for one `/api/content/stream/:key` request.
`cloudFrontAvailable` is `awsServices.cloudFrontService &&
process.env.AWS_CLOUDFRONT_DOMAIN`; `cfSign`/`cfFetch` are the CloudFront
signer and fetch; `s3Sign` is `getSignedVideoUrl` (throw, falsy, or a url);
`s3Fetch` is the origin fetch (the Range header, when present, is part of
the request the environment answers). -/
structure StreamEnv where
  rawKey : String
  rangeHeader : Option String
  cloudFrontAvailable : Bool
  cfSign : String → Except Unit String
  cfFetch : String → Except Unit UpstreamResponse
  s3Sign : String → Except Unit (Option String)
  s3Fetch : String → Except Unit UpstreamResponse

/-- Every client-visible exit point of the stream route, one constructor per
`res.…` call site.  `cfRelay`/`rangeRelay`/`fullRelay` pipe an upstream
body through with the shown status and headers; the `…NoBody` outcomes are
the 500 responses sent when the upstream response has no body; `outerError`
is the outer catch's 500 (`'Failed to stream content'`). -/
inductive StreamOutcome where
  | missingKey
  | cfRelay (status : Nat) (contentType : String)
  | cfNoBody
  | rangeNotFound
  | rangeRelay (status : Nat) (contentRange contentLength : Option String)
      (contentType : String)
  | rangeNoBody
  | rangeFetchError
  | fullNotFound
  | fullUpstreamError (status : Nat) (body : String)
  | fullRelay (status : Nat) (contentLength : Option String) (contentType : String)
  | fullNoBody
  | fullFetchError
  | outerError
deriving DecidableEq, Repr, Inhabited

/-- Tiers 2 and 3 of the stream route (part_000 lines 430-544): the ranged
S3 proxy when the request has a Range header and a seekable extension, else
the plain S3 proxy.  `getSignedVideoUrl` is awaited outside the inner try
blocks, so a signer throw escapes to the outer catch. -/
def streamS3Tiers (env : StreamEnv) (finalKey ext contentType : String) :
    StreamOutcome :=
  if (ext = "mp4" ∨ ext = "webm") ∧ env.rangeHeader.isSome then
    match env.s3Sign finalKey with
    | .error _ => .outerError
    | .ok none => .rangeNotFound
    | .ok (some url) =>
      match env.s3Fetch url with
      | .error _ => .rangeFetchError
      | .ok resp =>
        if resp.hasBody then
          .rangeRelay resp.status resp.contentRange resp.contentLength
            (resp.contentType.getD contentType)
        else .rangeNoBody
  else
    match env.s3Sign finalKey with
    | .error _ => .outerError
    | .ok none => .fullNotFound
    | .ok (some url) =>
      match env.s3Fetch url with
      | .error _ => .fullFetchError
      | .ok resp =>
        if 200 ≤ resp.status ∧ resp.status < 300 then
          if resp.hasBody then
            .fullRelay resp.status resp.contentLength (resp.contentType.getD contentType)
          else .fullNoBody
        else .fullUpstreamError resp.status resp.bodyText

/-- Tier 1 of the stream route (part_000 lines 386-428): when CloudFront is
configured and the extension is a streaming type, sign and fetch through
CloudFront inside a try whose catch falls through to the S3 tiers; a
successful fetch is relayed whatever its status. -/
def streamCfTier (env : StreamEnv) (finalKey ext contentType : String) :
    StreamOutcome :=
  if env.cloudFrontAvailable ∧ (ext = "m3u8" ∨ ext = "ts" ∨ ext = "mp4") then
    match env.cfSign finalKey with
    | .error _ => streamS3Tiers env finalKey ext contentType
    | .ok url =>
      match env.cfFetch url with
      | .error _ => streamS3Tiers env finalKey ext contentType
      | .ok resp =>
        if resp.hasBody then .cfRelay resp.status (resp.contentType.getD contentType)
        else .cfNoBody
  else streamS3Tiers env finalKey ext contentType

/-- The whole `/api/content/stream/:key` handler (part_000 lines 362-549):
reject a falsy key, decode it (at most twice), derive the content type,
then run the tiers; a decoding `URIError` reaches the outer catch. -/
def streamContent (env : StreamEnv) : StreamOutcome :=
  if env.rawKey = "" then .missingKey
  else
    match decodeStreamKey env.rawKey with
    | none => .outerError
    | some finalKey =>
      streamCfTier env finalKey (extOf finalKey) (contentTypeFor (extOf finalKey))

/-! ## Claim theorems -/

/-- C1: if a cache refresh pass fails with an error during the fetch/merge
phase (for example both source fetches fail), then after the call the
in-memory catalog snapshot and the last-refresh timestamp are exactly what
they were before the call, so a previously non-empty catalog keeps serving
the stale snapshot. -/
theorem refreshCache_stale_on_error (env : RefreshEnv) (st : CacheState)
    (h : fetchAndMerge env = .error ()) :
    (refreshCache env st).1 = st ∧
    (refreshCache env st).1.videosCache = st.videosCache ∧
    (refreshCache env st).1.lastCacheRefresh = st.lastCacheRefresh := by
  have hmain : (refreshCache env st).1 = st := by
    unfold refreshCache
    split
    · rfl
    · rw [h]
  exact ⟨hmain, by rw [hmain], by rw [hmain]⟩

/-- A refresh environment in which both backing-source fetches throw. -/
def envC1w : RefreshEnv :=
  { now := 1000000
    s3Videos := .error ()
    dynamoVideos := .error ()
    extract := fun _ => none
    signUrl := fun _ => .ok none }

/-- A previously cached entry. -/
def pvC1w : ProcessedVideo :=
  { id := "1", title := "T", description := "D"
    thumbnailUrl := none, videoUrl := none, hlsUrl := "movies/movie-1.mp4"
    duration := 120, releaseYear := 2023, genre := "Action", rating := "PG-13"
    featured := true, category := "Action", createdAt := 0 }

/-- A non-empty stale cache state (one minute-old entry). -/
def stC1w : CacheState :=
  { videosCache := [pvC1w], lastCacheRefresh := 0 }

/-- Witness for C1: with both fetches failing and the TTL expired, the
non-empty catalog and timestamp are untouched. -/
theorem refreshCache_stale_on_error_witness :
    fetchAndMerge envC1w = .error () ∧ (refreshCache envC1w stC1w).1 = stC1w :=
  ⟨rfl, (refreshCache_stale_on_error envC1w stC1w rfl).1⟩

/-- C3: when the elapsed time since the last successful refresh is strictly
below the 60-second TTL and the cached catalog is non-empty, `refreshCache`
returns immediately with the state unchanged and zero backing-source
calls. -/
theorem refreshCache_ttl_gate (env : RefreshEnv) (st : CacheState)
    (h1 : env.now - st.lastCacheRefresh < CACHE_TTL) (h2 : st.videosCache ≠ []) :
    refreshCache env st = (st, 0) := by
  unfold refreshCache
  exact if_pos ⟨h1, List.length_pos.mpr h2⟩

/-- A refresh environment whose sources would change the catalog if they
were consulted. -/
def envC3w : RefreshEnv :=
  { now := 59999
    s3Videos := .ok [{ key := "movies/movie-9.mp4", url := "u" }]
    dynamoVideos := .ok []
    extract := fun _ => some { id := "9", title := "Nine", genre := "G", fileType := "mp4" }
    signUrl := fun _ => .ok (some "signed") }

/-- Witness for C3: a second call 59.999 seconds after a refresh of a
non-empty cache is an identity with zero source calls. -/
theorem refreshCache_ttl_gate_witness :
    refreshCache envC3w stC1w = (stC1w, 0) :=
  refreshCache_ttl_gate envC3w stC1w (by decide) (by decide)

/-- C9: `getFeaturedContent` fails (the `'No videos available'` throw) iff
the catalog snapshot is empty after the refresh gate ran; otherwise it
returns the first asset flagged `featured`, or, when none is flagged, the
first asset in snapshot order (each converted by `toVideo`, with the fixed
95 match). -/
theorem getFeaturedContent_spec (env : RefreshEnv) (st : CacheState) :
    ((getFeaturedContent env st).1 = .error () ↔
      (refreshCache env st).1.videosCache = []) ∧
    (((refreshCache env st).1.videosCache.find? (fun v => v.featured)).isSome = true →
      (getFeaturedContent env st).1 =
        .ok { video := toVideo (((refreshCache env st).1.videosCache.find?
                (fun v => v.featured)).getD default),
              matchPercent := 95 }) ∧
    ((refreshCache env st).1.videosCache.find? (fun v => v.featured) = none →
      (refreshCache env st).1.videosCache ≠ [] →
      (getFeaturedContent env st).1 =
        .ok { video := toVideo ((refreshCache env st).1.videosCache.headD default),
              matchPercent := 95 }) := by
  cases hf : (refreshCache env st).1.videosCache.find? (fun v => v.featured) with
  | some w =>
    have hne : (refreshCache env st).1.videosCache ≠ [] :=
      List.ne_nil_of_mem (List.mem_of_find?_eq_some hf)
    refine ⟨?_, ?_, ?_⟩
    · simp [getFeaturedContent, hf, hne]
    · intro _
      simp [getFeaturedContent, hf]
    · intro h
      exact Option.noConfusion h
  | none =>
    cases hl : (refreshCache env st).1.videosCache with
    | nil =>
      refine ⟨?_, ?_, ?_⟩
      · simp [getFeaturedContent, hf, hl]
      · simp
      · intro _ h
        exact absurd rfl h
    | cons v vs =>
      rw [hl] at hf
      refine ⟨?_, ?_, ?_⟩
      · simp [getFeaturedContent, hf, hl]
      · simp [hf]
      · intro _ _
        simp [getFeaturedContent, hf, hl]

/-- A refresh environment that hits the TTL gate for the C9 witness. -/
def envC9w : RefreshEnv :=
  { now := 0
    s3Videos := .error ()
    dynamoVideos := .error ()
    extract := fun _ => none
    signUrl := fun _ => .ok none }

/-- A cached entry flagged featured, for the C9 witness. -/
def pvC9w : ProcessedVideo :=
  { id := "1", title := "Movie One", description := "Action movie: Movie One"
    thumbnailUrl := some "movies/movie-1.png", videoUrl := some "signed"
    hlsUrl := "movies/movie-1.mp4", duration := 120, releaseYear := 2023
    genre := "Action", rating := "PG-13", featured := true, category := "Action"
    createdAt := 0 }

/-- A fresh, non-empty cache state for the C9 witness. -/
def stC9w : CacheState :=
  { videosCache := [pvC9w], lastCacheRefresh := 0 }

/-- Witness for C9: with a fresh catalog holding one featured asset, the
call returns that asset. -/
theorem getFeaturedContent_spec_witness :
    (getFeaturedContent envC9w stC9w).1 =
      .ok { video := toVideo pvC9w, matchPercent := 95 } :=
  (getFeaturedContent_spec envC9w stC9w).2.1 (by decide)

/-- C10 (amended): `getVideoById` returns the first cached asset whose id
parses, under JS `parseInt` semantics, to `videoId` (and `none` when there
is none); any returned asset's id therefore parses to an integer — but
because `parseInt` skips leading whitespace and accepts a sign, the id need
not begin with a decimal digit.  When no cached id parses at all, the
lookup always misses. -/
theorem getVideoById_spec (env : RefreshEnv) (n : Int) (st : CacheState) :
    ((getVideoById env n st).1 =
      ((refreshCache env st).1.videosCache.find?
        (fun v => jsParseInt v.id = some n)).map toVideo) ∧
    ((getVideoById env n st).1 ≠ none →
      (refreshCache env st).1.videosCache.any
        (fun v => jsParseInt v.id = some n) = true) ∧
    ((refreshCache env st).1.videosCache.all
        (fun v => jsParseInt v.id = none) = true →
      (getVideoById env n st).1 = none) := by
  cases hf : (refreshCache env st).1.videosCache.find?
      (fun v => jsParseInt v.id = some n) with
  | some w =>
    refine ⟨?_, ?_, ?_⟩
    · simp [getVideoById, hf]
    · intro _
      have hp := List.find?_some hf
      exact List.any_eq_true.mpr ⟨w, List.mem_of_find?_eq_some hf, hp⟩
    · intro hall
      have hp := List.find?_some hf
      have h1 : jsParseInt w.id = some n := of_decide_eq_true hp
      have h2 : jsParseInt w.id = none :=
        of_decide_eq_true (List.all_eq_true.mp hall w (List.mem_of_find?_eq_some hf))
      rw [h1] at h2
      exact Option.noConfusion h2
  | none =>
    refine ⟨?_, ?_, ?_⟩
    · simp [getVideoById, hf]
    · intro hne
      exact absurd (by simp [getVideoById, hf]) hne
    · intro _
      simp [getVideoById, hf]

/-- A cached asset whose id starts with a sign, not a digit. -/
def pvC10x : ProcessedVideo :=
  { id := "+7", title := "Plus", description := "D"
    thumbnailUrl := none, videoUrl := none, hlsUrl := "k.mp4"
    duration := 0, releaseYear := 2023, genre := "G", rating := "NR"
    featured := false, category := "G", createdAt := 0 }

/-- Fresh cache holding only `pvC10x`. -/
def stC10x : CacheState :=
  { videosCache := [pvC10x], lastCacheRefresh := 0 }

/-- A refresh environment that hits the TTL gate for the C10 counterexample
and witness. -/
def envC10x : RefreshEnv :=
  { now := 0
    s3Videos := .error ()
    dynamoVideos := .error ()
    extract := fun _ => none
    signUrl := fun _ => .ok none }

/-- Counterexample to C10 as stated: the lookup for `videoId = 7` returns
the asset whose id is `"+7"`, which does not begin with a decimal digit
(JS `parseInt` accepts a leading sign), contradicting the claim that such
an asset can never be returned. -/
theorem getVideoById_counterexample :
    (getVideoById envC10x 7 stC10x).1 = some (toVideo pvC10x) ∧
    pvC10x.id = "+7" ∧
    (pvC10x.id.data.head?.elim false Char.isDigit) = false := by
  decide

/-- A cached asset with a non-numeric id for the C10 witness. -/
def pvC10w : ProcessedVideo :=
  { id := "movie-3", title := "Three", description := "D"
    thumbnailUrl := none, videoUrl := none, hlsUrl := "k3.mp4"
    duration := 0, releaseYear := 2023, genre := "G", rating := "NR"
    featured := false, category := "G", createdAt := 0 }

/-- Fresh cache holding only `pvC10w`. -/
def stC10w : CacheState :=
  { videosCache := [pvC10w], lastCacheRefresh := 0 }

/-- Witness for the amended C10: a catalog whose only id parses to `NaN`
misses for every requested id, e.g. 5. -/
theorem getVideoById_spec_witness :
    (getVideoById envC10x 5 stC10w).1 = none :=
  (getVideoById_spec envC10x 5 stC10w).2.2 (by decide)

/-- C8 (amended): when signing succeeds, `requestTranscodeJob` appends
exactly one new asset to the live snapshot without consulting the TTL gate
(the append happens for every cache state and `lastCacheRefresh` is left
alone) and returns the derived asset id; the DynamoDB mirror write is
skipped entirely in development mode, while outside development mode a
mirror-write failure propagates and fails the operation — after the append
has already happened. -/
theorem requestTranscodeJob_spec (env : IngestEnv) (t d k : String)
    (st : CacheState) (url : Option String) (hsign : env.signUrl k = .ok url) :
    ((requestTranscodeJob env t d k st).2.videosCache =
      st.videosCache ++
        [{ id := jsOrOptStr ((env.extract k).map (fun mi => mi.id)) env.randomId
           title := t, description := d, thumbnailUrl := none, videoUrl := url
           hlsUrl := k, duration := 0, releaseYear := 2023
           genre := jsOrOptStr ((env.extract k).map (fun mi => mi.genre)) "Unknown"
           rating := "NR", featured := false
           category := jsOrOptStr ((env.extract k).map (fun mi => mi.genre)) "Uploads"
           createdAt := env.now }]) ∧
    ((requestTranscodeJob env t d k st).2.lastCacheRefresh = st.lastCacheRefresh) ∧
    (env.devMode = true →
      (requestTranscodeJob env t d k st).1 =
        .ok { success := true
              videoId := some (jsOrOptStr ((env.extract k).map (fun mi => mi.id)) env.randomId)
              dev := false }) ∧
    (env.devMode = false → env.putItemResult = .ok () →
      (requestTranscodeJob env t d k st).1 =
        .ok { success := true
              videoId := some (jsOrOptStr ((env.extract k).map (fun mi => mi.id)) env.randomId)
              dev := false }) ∧
    (env.devMode = false → env.putItemResult = .error () →
      (requestTranscodeJob env t d k st).1 = .error ()) := by
  refine ⟨?_, ?_, ?_, ?_, ?_⟩
  · cases hdev : env.devMode with
    | true => simp [requestTranscodeJob, hsign, hdev]
    | false =>
      cases hput : env.putItemResult with
      | ok u => simp [requestTranscodeJob, hsign, hdev, hput]
      | error e => simp [requestTranscodeJob, hsign, hdev, hput]
  · cases hdev : env.devMode with
    | true => simp [requestTranscodeJob, hsign, hdev]
    | false =>
      cases hput : env.putItemResult with
      | ok u => simp [requestTranscodeJob, hsign, hdev, hput]
      | error e => simp [requestTranscodeJob, hsign, hdev, hput]
  · intro hdev
    simp [requestTranscodeJob, hsign, hdev]
  · intro hdev hput
    simp [requestTranscodeJob, hsign, hdev, hput]
  · intro hdev hput
    simp [requestTranscodeJob, hsign, hdev, hput]

/-- An ingest environment outside development mode whose DynamoDB mirror
write throws, while signing succeeds. -/
def envC8x : IngestEnv :=
  { now := 5
    devMode := false
    extract := fun _ => none
    signUrl := fun _ => .ok (some "signed-url")
    putItemResult := .error ()
    randomId := "4242" }

/-- The asset the C8 counterexample run appends. -/
def pvC8x : ProcessedVideo :=
  { id := "4242", title := "T", description := "D"
    thumbnailUrl := none, videoUrl := some "signed-url", hlsUrl := "movies/up.mp4"
    duration := 0, releaseYear := 2023, genre := "Unknown", rating := "NR"
    featured := false, category := "Uploads", createdAt := 5 }

/-- Counterexample to C8 as stated: outside development mode a failing
mirror write makes the whole ingest call throw (the result is an error, no
asset id is returned), even though the asset was already appended — so the
mirror write is not best-effort. -/
theorem requestTranscodeJob_counterexample :
    requestTranscodeJob envC8x "T" "D" "movies/up.mp4" ⟨[], 0⟩ =
      (.error (), ⟨[pvC8x], 0⟩) := by
  rfl

/-- An ingest environment in development mode with successful signing. -/
def envC8w : IngestEnv :=
  { now := 5
    devMode := true
    extract := fun _ => none
    signUrl := fun _ => .ok (some "signed-url")
    putItemResult := .error ()
    randomId := "4242" }

/-- Witness for the amended C8: in development mode the ingest appends the
asset and returns its id even though the (skipped) mirror write would have
failed. -/
theorem requestTranscodeJob_spec_witness :
    (requestTranscodeJob envC8w "T" "D" "movies/up.mp4" ⟨[], 0⟩).1 =
      .ok { success := true, videoId := some "4242", dev := false } :=
  (requestTranscodeJob_spec envC8w "T" "D" "movies/up.mp4" ⟨[], 0⟩
    (some "signed-url") rfl).2.2.1 rfl

/-- The DynamoDB merge loop only appends: its successful result extends the
already-processed list. -/
theorem processDynamo_ok_append (now : Int)
    (sign : String → Except Unit (Option String)) :
    ∀ (dyn : List DynamoVideo) (acc out : List ProcessedVideo),
      processDynamo now sign acc dyn = .ok out → ∃ extra, out = acc ++ extra := by
  intro dyn
  induction dyn with
  | nil =>
    intro acc out h
    simp only [processDynamo] at h
    cases h
    exact ⟨[], by simp⟩
  | cons dv rest ih =>
    intro acc out h
    simp only [processDynamo] at h
    split at h
    · exact ih acc out h
    · split at h
      · exact absurd h (by simp)
      · rename_i videoUrl hequrl
        obtain ⟨extra, hex⟩ := ih _ out h
        exact ⟨mkDynamoProcessed now dv videoUrl :: extra, by rw [hex]; simp⟩

/-- Once an id is resolved by the already-processed prefix, the DynamoDB
merge loop never changes what a first-match lookup on that id returns. -/
theorem processDynamo_find?_stable (now : Int)
    (sign : String → Except Unit (Option String)) :
    ∀ (dyn : List DynamoVideo) (acc out : List ProcessedVideo)
      (a : ProcessedVideo),
      processDynamo now sign acc dyn = .ok out →
      acc.find? (fun w => w.id = a.id) = some a →
      out.find? (fun w => w.id = a.id) = some a := by
  intro dyn
  induction dyn with
  | nil =>
    intro acc out a h ha
    simp only [processDynamo] at h
    cases h
    exact ha
  | cons dv rest ih =>
    intro acc out a h ha
    simp only [processDynamo] at h
    split at h
    · exact ih acc out a h ha
    · split at h
      · exact absurd h (by simp)
      · rename_i videoUrl hequrl
        refine ih _ out a h ?_
        rw [List.find?_append, ha]
        rfl

/-- Every entry of a successful DynamoDB merge either was already in the
processed prefix or is built by `mkDynamoProcessed` from one of the rows. -/
theorem processDynamo_mem_src (now : Int)
    (sign : String → Except Unit (Option String)) :
    ∀ (dyn : List DynamoVideo) (acc out : List ProcessedVideo),
      processDynamo now sign acc dyn = .ok out →
      ∀ v ∈ out, v ∈ acc ∨
        ∃ dv url, dv ∈ dyn ∧ v = mkDynamoProcessed now dv url := by
  intro dyn
  induction dyn with
  | nil =>
    intro acc out h v hv
    simp only [processDynamo] at h
    cases h
    exact Or.inl hv
  | cons dv rest ih =>
    intro acc out h v hv
    simp only [processDynamo] at h
    split at h
    · rcases ih acc out h v hv with hin | ⟨dv2, url, hmem, hrfl⟩
      · exact Or.inl hin
      · exact Or.inr ⟨dv2, url, List.mem_cons_of_mem dv hmem, hrfl⟩
    · split at h
      · exact absurd h (by simp)
      · rename_i videoUrl hequrl
        rcases ih _ out h v hv with hin | ⟨dv2, url, hmem, hrfl⟩
        · rcases List.mem_append.mp hin with hin2 | hin2
          · exact Or.inl hin2
          · refine Or.inr ⟨dv, videoUrl, List.mem_cons_self dv rest, ?_⟩
            simpa using hin2
        · exact Or.inr ⟨dv2, url, List.mem_cons_of_mem dv hmem, hrfl⟩

/-- A successful DynamoDB merge keeps catalog ids pairwise distinct. -/
theorem processDynamo_pairwise (now : Int)
    (sign : String → Except Unit (Option String)) :
    ∀ (dyn : List DynamoVideo) (acc out : List ProcessedVideo),
      processDynamo now sign acc dyn = .ok out →
      acc.Pairwise (fun a b => a.id ≠ b.id) →
      out.Pairwise (fun a b => a.id ≠ b.id) := by
  intro dyn
  induction dyn with
  | nil =>
    intro acc out h hp
    simp only [processDynamo] at h
    cases h
    exact hp
  | cons dv rest ih =>
    intro acc out h hp
    simp only [processDynamo] at h
    split at h
    · exact ih acc out h hp
    · rename_i hnotany
      split at h
      · exact absurd h (by simp)
      · rename_i videoUrl hequrl
        refine ih _ out h ?_
        rw [List.pairwise_append]
        refine ⟨hp, List.pairwise_singleton _ _, ?_⟩
        intro a ha b hb
        have hb2 : b = mkDynamoProcessed now dv videoUrl := by simpa using hb
        subst hb2
        intro hid
        apply hnotany
        exact List.any_eq_true.mpr ⟨a, ha, by simpa using hid⟩

/-- Every id the structured-record source delivers ends up present in the
merged catalog (rows are appended whether or not they carry a video key;
when the id is already present it is simply kept). -/
theorem processDynamo_ids_covered (now : Int)
    (sign : String → Except Unit (Option String)) :
    ∀ (dyn : List DynamoVideo) (acc out : List ProcessedVideo),
      processDynamo now sign acc dyn = .ok out →
      ∀ dv ∈ dyn, ∃ v ∈ out, v.id = dv.id := by
  intro dyn
  induction dyn with
  | nil =>
    intro acc out h dv hdv
    exact absurd hdv (List.not_mem_nil dv)
  | cons dv0 rest ih =>
    intro acc out h dv hdv
    simp only [processDynamo] at h
    rcases List.mem_cons.mp hdv with hdveq | hdvrest
    · subst hdveq
      split at h
      · rename_i hany
        obtain ⟨a, ha, haid⟩ := List.any_eq_true.mp hany
        obtain ⟨extra, hex⟩ := processDynamo_ok_append now sign rest acc out h
        exact ⟨a, hex ▸ List.mem_append_left extra ha, of_decide_eq_true haid⟩
      · split at h
        · exact absurd h (by simp)
        · rename_i videoUrl hequrl
          obtain ⟨extra, hex⟩ := processDynamo_ok_append now sign rest _ out h
          refine ⟨mkDynamoProcessed now dv videoUrl, ?_, rfl⟩
          rw [hex]
          exact List.mem_append_left extra (List.mem_append_right acc (by simp))
    · split at h
      · exact ih acc out h dv hdvrest
      · split at h
        · exact absurd h (by simp)
        · exact ih _ out h dv hdvrest

/-- Every asset the S3 phase emits is built by `mkS3Processed` from a group
whose file list contains an `mp4` entry (its `find?` hit). -/
theorem processMovies_origin (now : Int)
    (sign : String → Except Unit (Option String)) :
    ∀ (ms : List Movie) (l : List ProcessedVideo),
      processMovies now sign ms = .ok l →
      ∀ v ∈ l, ∃ m ∈ ms, ∃ vf url,
        m.files.find? (fun f => f.type = "mp4") = some vf ∧
        v = mkS3Processed now m (m.files.find? (fun f => f.type = "png")) vf url := by
  intro ms
  induction ms with
  | nil =>
    intro l h v hv
    simp only [processMovies] at h
    cases h
    exact absurd hv (List.not_mem_nil v)
  | cons m rest ih =>
    intro l h v hv
    simp only [processMovies] at h
    split at h
    · rename_i hmp4
      obtain ⟨m2, hm2, vf, url, hvf, hrfl⟩ := ih l h v hv
      exact ⟨m2, List.mem_cons_of_mem m hm2, vf, url, hvf, hrfl⟩
    · rename_i vf hvf
      split at h
      · exact absurd h (by simp)
      · rename_i videoUrl hequrl
        split at h
        · exact absurd h (by simp)
        · rename_i vs hvs
          cases h
          rcases List.mem_cons.mp hv with hveq | hvrest
          · exact ⟨m, List.mem_cons_self m rest, vf, videoUrl, hvf, hveq⟩
          · obtain ⟨m2, hm2, vf2, url2, hvf2, hrfl⟩ := ih vs hvs v hvrest
            exact ⟨m2, List.mem_cons_of_mem m hm2, vf2, url2, hvf2, hrfl⟩

/-- When the grouping map has pairwise-distinct ids, so does the S3 phase
output. -/
theorem processMovies_pairwise (now : Int)
    (sign : String → Except Unit (Option String)) :
    ∀ (ms : List Movie) (l : List ProcessedVideo),
      processMovies now sign ms = .ok l →
      ms.Pairwise (fun a b => a.id ≠ b.id) →
      l.Pairwise (fun a b => a.id ≠ b.id) := by
  intro ms
  induction ms with
  | nil =>
    intro l h _
    simp only [processMovies] at h
    cases h
    exact List.Pairwise.nil
  | cons m rest ih =>
    intro l h hp
    simp only [processMovies] at h
    have hphead := (List.pairwise_cons.mp hp).1
    have hptail := (List.pairwise_cons.mp hp).2
    split at h
    · exact ih l h hptail
    · rename_i vf hvf
      split at h
      · exact absurd h (by simp)
      · rename_i videoUrl hequrl
        split at h
        · exact absurd h (by simp)
        · rename_i vs hvs
          cases h
          refine List.pairwise_cons.mpr ⟨?_, ih vs hvs hptail⟩
          intro v hv
          obtain ⟨m2, hm2, vf2, url2, hvf2, hrfl⟩ :=
            processMovies_origin now sign rest vs hvs v hv
          subst hrfl
          exact hphead m2 hm2

/-- `addS3File` never changes a group's id (it only extends a file list or
appends a new group), so grouping keeps group ids pairwise distinct. -/
theorem addS3File_pairwise (acc : List Movie) (mi : MovieInfo) (f : S3File)
    (hp : acc.Pairwise (fun a b => a.id ≠ b.id)) :
    (addS3File acc mi f).Pairwise (fun a b => a.id ≠ b.id) := by
  unfold addS3File
  split
  · rw [List.pairwise_map]
    refine hp.imp_of_mem ?_
    intro a b _ _ hab
    split <;> split <;> simpa using hab
  · rename_i hnotany
    rw [List.pairwise_append]
    refine ⟨hp, List.pairwise_singleton _ _, ?_⟩
    intro a ha b hb
    have hbe := List.mem_singleton.mp hb
    subst hbe
    intro hid
    apply hnotany
    exact List.any_eq_true.mpr ⟨a, ha, by simpa using hid⟩

/-- The grouping map produced from the bulk listing has pairwise-distinct
ids. -/
theorem buildMovieMap_pairwise (extract : String → Option MovieInfo)
    (files : List S3File) :
    (buildMovieMap extract files).Pairwise (fun a b => a.id ≠ b.id) := by
  have main : ∀ (fs : List S3File) (acc : List Movie),
      acc.Pairwise (fun a b => a.id ≠ b.id) →
      (fs.foldl (fun acc f =>
        match extract f.key with
        | none => acc
        | some mi => addS3File acc mi f) acc).Pairwise (fun a b => a.id ≠ b.id) := by
    intro fs
    induction fs with
    | nil => intro acc hp; exact hp
    | cons f rest ih =>
      intro acc hp
      simp only [List.foldl_cons]
      cases hx : extract f.key with
      | none => simpa [hx] using ih acc hp
      | some mi => simpa [hx] using ih (addS3File acc mi f) (addS3File_pairwise acc mi f hp)
  exact main files [] List.Pairwise.nil

/-- On a list with pairwise-distinct ids, first-match lookup by a member's
id returns that member. -/
theorem find?_id_of_mem_pairwise (l : List ProcessedVideo) (a : ProcessedVideo)
    (hp : l.Pairwise (fun x y => x.id ≠ y.id)) (ha : a ∈ l) :
    l.find? (fun w => w.id = a.id) = some a := by
  induction l with
  | nil => exact absurd ha (List.not_mem_nil a)
  | cons b l2 ih =>
    have hphead := (List.pairwise_cons.mp hp).1
    have hptail := (List.pairwise_cons.mp hp).2
    rcases List.mem_cons.mp ha with h | h
    · subst h
      simp [List.find?_cons]
    · have hb : decide (b.id = a.id) = false := decide_eq_false (hphead a h)
      rw [List.find?_cons]
      simp only [hb]
      exact ih hptail h

/-- C2 (amended): the merged catalog has pairwise-distinct ids (at most one
entry per id), and every asset the bulk-listing (S3) phase produced — that
is, every id whose group contained a video file — is exactly what a lookup
of its id in the merged catalog returns: the structured-record version of a
duplicated id never displaces it.  (When the S3 group for an id is
thumbnail-only it produces no asset, and the structured-record version is
appended instead — see the counterexample.) -/
theorem refreshCache_merge_precedence (env : RefreshEnv)
    (s3 : List S3File) (dyn : List DynamoVideo)
    (procd merged : List ProcessedVideo)
    (hs3 : env.s3Videos = .ok s3)
    (hdyn : env.dynamoVideos = .ok dyn)
    (hp : processMovies env.now env.signUrl (buildMovieMap env.extract s3) = .ok procd)
    (hm : processDynamo env.now env.signUrl procd dyn = .ok merged) :
    fetchAndMerge env = .ok merged ∧
    merged.Pairwise (fun a b => a.id ≠ b.id) ∧
    ∀ v ∈ procd, merged.find? (fun w => w.id = v.id) = some v := by
  have hprocd_pw := processMovies_pairwise env.now env.signUrl _ procd hp
    (buildMovieMap_pairwise env.extract s3)
  refine ⟨by simp [fetchAndMerge, hs3, hdyn, hp, hm], ?_, ?_⟩
  · exact processDynamo_pairwise env.now env.signUrl dyn procd merged hm hprocd_pw
  · intro v hv
    exact processDynamo_find?_stable env.now env.signUrl dyn procd merged v hm
      (find?_id_of_mem_pairwise procd v hprocd_pw hv)

/-- C4 (amended): in a snapshot produced by a refresh pass, a bulk-listing
asset is featured iff its id is the literal string `'1'`
(`movie.id === '1'`), not iff it was the first id encountered in listing
order; an asset appended from the structured-record source carries the
record's own featured flag (defaulting to false). -/
theorem refreshCache_featured_policy (env : RefreshEnv)
    (s3 : List S3File) (dyn : List DynamoVideo)
    (procd merged : List ProcessedVideo)
    (hs3 : env.s3Videos = .ok s3)
    (hdyn : env.dynamoVideos = .ok dyn)
    (hp : processMovies env.now env.signUrl (buildMovieMap env.extract s3) = .ok procd)
    (hm : processDynamo env.now env.signUrl procd dyn = .ok merged) :
    fetchAndMerge env = .ok merged ∧
    ∀ v ∈ merged,
      (v ∈ procd ∧ v.featured = decide (v.id = "1")) ∨
      (∃ dv url, dv ∈ dyn ∧ v = mkDynamoProcessed env.now dv url ∧
        v.featured = dv.featured.getD false) := by
  refine ⟨by simp [fetchAndMerge, hs3, hdyn, hp, hm], ?_⟩
  intro v hv
  rcases processDynamo_mem_src env.now env.signUrl dyn procd merged hm v hv with
    hin | ⟨dv, url, hdvmem, hrfl⟩
  · left
    refine ⟨hin, ?_⟩
    obtain ⟨m, hmmem, vf, url, hvf, hrfl⟩ :=
      processMovies_origin env.now env.signUrl _ procd hp v hin
    subst hrfl
    rfl
  · right
    exact ⟨dv, url, hdvmem, hrfl, by subst hrfl; rfl⟩

/-- C5 (amended): every asset the bulk-listing phase includes comes from a
group holding an `mp4` file whose key becomes the asset's playback key
(thumbnail-only groups are dropped), but entries from the structured-record
source are appended — their id always reaches the merged catalog — whether
or not they carry a resolvable playback key. -/
theorem refreshCache_playback_key (env : RefreshEnv)
    (s3 : List S3File) (dyn : List DynamoVideo)
    (procd merged : List ProcessedVideo)
    (hs3 : env.s3Videos = .ok s3)
    (hdyn : env.dynamoVideos = .ok dyn)
    (hp : processMovies env.now env.signUrl (buildMovieMap env.extract s3) = .ok procd)
    (hm : processDynamo env.now env.signUrl procd dyn = .ok merged) :
    fetchAndMerge env = .ok merged ∧
    (∀ v ∈ procd, ∃ m ∈ buildMovieMap env.extract s3, ∃ f ∈ m.files,
      f.type = "mp4" ∧ v.hlsUrl = f.key) ∧
    (∀ dv ∈ dyn, ∃ v ∈ merged, v.id = dv.id) := by
  refine ⟨by simp [fetchAndMerge, hs3, hdyn, hp, hm], ?_, ?_⟩
  · intro v hv
    obtain ⟨m, hmmem, vf, url, hvf, hrfl⟩ :=
      processMovies_origin env.now env.signUrl _ procd hp v hv
    have hvfp := List.find?_some hvf
    refine ⟨m, hmmem, vf, List.mem_of_find?_eq_some hvf, of_decide_eq_true hvfp, ?_⟩
    subst hrfl
    rfl
  · exact processDynamo_ids_covered env.now env.signUrl dyn procd merged hm

/-- A structured record sharing id "5" with a thumbnail-only S3 group. -/
def dvC2x : DynamoVideo :=
  { id := "5", title := some "Record Five", description := none
    thumbnailKey := none, videoKey := some "k5.mp4", genre := none
    releaseYear := none, duration := none, rating := none
    featured := none, createdAt := some 1 }

/-- The single (thumbnail-only) listing entry for the C2 counterexample. -/
def s3fC2x : S3File := { key := "movies/movie-5.png", url := "u" }

/-- C2 counterexample environment: id "5" is present in both sources, but
its S3 group holds only a png. -/
def envC2x : RefreshEnv :=
  { now := 0
    s3Videos := .ok [s3fC2x]
    dynamoVideos := .ok [dvC2x]
    extract := fun k =>
      if k = "movies/movie-5.png" then
        some { id := "5", title := "Movie Five", genre := "Drama", fileType := "png" }
      else none
    signUrl := fun _ => .ok (some "signed") }

/-- Counterexample to C2 as stated: id "5" is surfaced by the bulk listing
(the grouping map contains it) and by the structured-record source, yet the
refreshed catalog's only entry for "5" is the structured-record version
(title "Record Five"), because the thumbnail-only S3 group was dropped
before the merge. -/
theorem refreshCache_merge_precedence_counterexample :
    (buildMovieMap envC2x.extract [s3fC2x]).map (fun m => m.id) = ["5"] ∧
    (refreshCache envC2x ⟨[], 0⟩).1.videosCache.map (fun v => (v.id, v.title)) =
      [("5", "Record Five")] := by
  decide

/-- The C2 witness listing file: a proper mp4 for id "1". -/
def s3fC2w : S3File := { key := "movies/movie-1.mp4", url := "u1" }

/-- The C2 witness listing. -/
def s3C2w : List S3File := [s3fC2w]

/-- A structured record duplicating id "1". -/
def dvC2w1 : DynamoVideo :=
  { id := "1", title := some "Dup One", description := none
    thumbnailKey := none, videoKey := some "k1.mp4", genre := none
    releaseYear := none, duration := none, rating := none
    featured := none, createdAt := none }

/-- A structured record with the fresh id "9". -/
def dvC2w9 : DynamoVideo :=
  { id := "9", title := some "Nine", description := none
    thumbnailKey := none, videoKey := some "k9.mp4", genre := none
    releaseYear := none, duration := none, rating := none
    featured := none, createdAt := none }

/-- The C2 witness records. -/
def dynC2w : List DynamoVideo := [dvC2w1, dvC2w9]

/-- The C2 witness environment: id "1" in both sources (with a video file),
id "9" only in the records. -/
def envC2w : RefreshEnv :=
  { now := 0
    s3Videos := .ok s3C2w
    dynamoVideos := .ok dynC2w
    extract := fun k =>
      if k = "movies/movie-1.mp4" then
        some { id := "1", title := "Movie One", genre := "Action", fileType := "mp4" }
      else none
    signUrl := fun _ => .ok (some "signed") }

/-- The C2 witness S3-phase output. -/
def procdC2w : List ProcessedVideo :=
  (processMovies envC2w.now envC2w.signUrl
    (buildMovieMap envC2w.extract s3C2w)).toOption.getD []

/-- The C2 witness merged catalog. -/
def mergedC2w : List ProcessedVideo :=
  (processDynamo envC2w.now envC2w.signUrl procdC2w dynC2w).toOption.getD []

/-- Witness for the amended C2: on the concrete two-source scenario the
merged catalog has distinct ids and every S3-phase asset stays the entry
its id resolves to. -/
theorem refreshCache_merge_precedence_witness :
    mergedC2w.Pairwise (fun a b => a.id ≠ b.id) ∧
    ∀ v ∈ procdC2w, mergedC2w.find? (fun w => w.id = v.id) = some v :=
  (refreshCache_merge_precedence envC2w s3C2w dynC2w procdC2w mergedC2w
    rfl rfl rfl rfl).2

/-- The single listing file for the C4 counterexample: its derived id is
"2". -/
def s3fC4x : S3File := { key := "movies/movie-2.mp4", url := "u" }

/-- C4 counterexample environment: the first (and only) id encountered in
bulk-listing order is "2". -/
def envC4x : RefreshEnv :=
  { now := 0
    s3Videos := .ok [s3fC4x]
    dynamoVideos := .ok []
    extract := fun k =>
      if k = "movies/movie-2.mp4" then
        some { id := "2", title := "Movie Two", genre := "Drama", fileType := "mp4" }
      else none
    signUrl := fun _ => .ok (some "signed") }

/-- Counterexample to C4 as stated: the first id encountered in listing
order is "2", yet the refreshed snapshot's only asset has `featured =
false` (the code sets `featured` by `movie.id === '1'`, not by listing
position), so no asset of this snapshot is featured. -/
theorem refreshCache_featured_counterexample :
    (buildMovieMap envC4x.extract [s3fC4x]).map (fun m => m.id) = ["2"] ∧
    (refreshCache envC4x ⟨[], 0⟩).1.videosCache.map (fun v => (v.id, v.featured)) =
      [("2", false)] := by
  decide

/-- C4 witness listing: ids "1" and "2", both with video files. -/
def s3C4w : List S3File :=
  [{ key := "movies/movie-1.mp4", url := "u1" }, { key := "movies/movie-2.mp4", url := "u2" }]

/-- C4 witness record with its own featured flag set. -/
def dvC4w : DynamoVideo :=
  { id := "8", title := some "Eight", description := none
    thumbnailKey := none, videoKey := some "k8.mp4", genre := none
    releaseYear := none, duration := none, rating := none
    featured := some true, createdAt := none }

/-- C4 witness records. -/
def dynC4w : List DynamoVideo := [dvC4w]

/-- C4 witness environment. -/
def envC4w : RefreshEnv :=
  { now := 0
    s3Videos := .ok s3C4w
    dynamoVideos := .ok dynC4w
    extract := fun k =>
      if k = "movies/movie-1.mp4" then
        some { id := "1", title := "Movie One", genre := "Action", fileType := "mp4" }
      else if k = "movies/movie-2.mp4" then
        some { id := "2", title := "Movie Two", genre := "Drama", fileType := "mp4" }
      else none
    signUrl := fun _ => .ok (some "signed") }

/-- The C4 witness S3-phase output. -/
def procdC4w : List ProcessedVideo :=
  (processMovies envC4w.now envC4w.signUrl
    (buildMovieMap envC4w.extract s3C4w)).toOption.getD []

/-- The C4 witness merged catalog. -/
def mergedC4w : List ProcessedVideo :=
  (processDynamo envC4w.now envC4w.signUrl procdC4w dynC4w).toOption.getD []

/-- Witness for the amended C4: every asset of the concrete merged snapshot
is either an S3 asset featured iff its id is "1", or a record-built asset
carrying the record's flag. -/
theorem refreshCache_featured_policy_witness :
    mergedC4w.map (fun v => (v.id, v.featured)) =
      [("1", true), ("2", false), ("8", true)] ∧
    ∀ v ∈ mergedC4w,
      (v ∈ procdC4w ∧ v.featured = decide (v.id = "1")) ∨
      (∃ dv url, dv ∈ dynC4w ∧ v = mkDynamoProcessed envC4w.now dv url ∧
        v.featured = dv.featured.getD false) :=
  ⟨by decide,
   (refreshCache_featured_policy envC4w s3C4w dynC4w procdC4w mergedC4w
    rfl rfl rfl rfl).2⟩

/-- A structured record with no video key at all. -/
def dvC5x : DynamoVideo :=
  { id := "7", title := some "Seven", description := none
    thumbnailKey := some "thumb7.png", videoKey := none, genre := none
    releaseYear := none, duration := none, rating := none
    featured := none, createdAt := none }

/-- C5 counterexample environment: the only record carries no playback
key. -/
def envC5x : RefreshEnv :=
  { now := 0
    s3Videos := .ok []
    dynamoVideos := .ok [dvC5x]
    extract := fun _ => none
    signUrl := fun _ => .ok (some "signed") }

/-- Counterexample to C5 as stated: a structured record without any video
key is still appended to the catalog — the refreshed snapshot contains the
asset id "7" with an empty `hlsUrl` and no `videoUrl`, so the inclusion
condition (a resolvable primary playback key) does not hold for
structured-record entries. -/
theorem refreshCache_playback_key_counterexample :
    (refreshCache envC5x ⟨[], 0⟩).1.videosCache.map
        (fun v => (v.id, v.hlsUrl, v.videoUrl)) =
      [("7", "", none)] := by
  decide

/-- C5 witness listing: a thumbnail-only group ("3") and a full group
("1"). -/
def s3C5w : List S3File :=
  [{ key := "movies/movie-3.png", url := "u3" }, { key := "movies/movie-1.mp4", url := "u1" }]

/-- C5 witness records. -/
def dynC5w : List DynamoVideo := [dvC5x]

/-- C5 witness environment. -/
def envC5w : RefreshEnv :=
  { now := 0
    s3Videos := .ok s3C5w
    dynamoVideos := .ok dynC5w
    extract := fun k =>
      if k = "movies/movie-3.png" then
        some { id := "3", title := "Movie Three", genre := "Drama", fileType := "png" }
      else if k = "movies/movie-1.mp4" then
        some { id := "1", title := "Movie One", genre := "Action", fileType := "mp4" }
      else none
    signUrl := fun _ => .ok (some "signed") }

/-- The C5 witness S3-phase output. -/
def procdC5w : List ProcessedVideo :=
  (processMovies envC5w.now envC5w.signUrl
    (buildMovieMap envC5w.extract s3C5w)).toOption.getD []

/-- The C5 witness merged catalog. -/
def mergedC5w : List ProcessedVideo :=
  (processDynamo envC5w.now envC5w.signUrl procdC5w dynC5w).toOption.getD []

/-- Witness for the amended C5 on the concrete scenario: every S3-phase
asset has an mp4 playback key, and the key-less record id "7" still reaches
the merged catalog. -/
theorem refreshCache_playback_key_witness :
    (∀ v ∈ procdC5w, ∃ m ∈ buildMovieMap envC5w.extract s3C5w, ∃ f ∈ m.files,
      f.type = "mp4" ∧ v.hlsUrl = f.key) ∧
    (∀ dv ∈ dynC5w, ∃ v ∈ mergedC5w, v.id = dv.id) :=
  (refreshCache_playback_key envC5w s3C5w dynC5w procdC5w mergedC5w
    rfl rfl rfl rfl).2

/-- C6 (amended): a thrown CloudFront signer error or a CloudFront fetch
(transport) error falls through to the S3 tiers without surfacing anything
to the client; but a CloudFront response that resolves — with any HTTP
status, 2xx or not — is relayed as-is, so a non-2xx edge status is visible
to the caller instead of falling through. -/
theorem streamContent_tier1_semantics (env : StreamEnv) (finalKey : String)
    (hkey : env.rawKey ≠ "") (hdec : decodeStreamKey env.rawKey = some finalKey) :
    (env.cfSign finalKey = .error () →
      streamContent env =
        streamS3Tiers env finalKey (extOf finalKey) (contentTypeFor (extOf finalKey))) ∧
    (∀ url, env.cfSign finalKey = .ok url → env.cfFetch url = .error () →
      streamContent env =
        streamS3Tiers env finalKey (extOf finalKey) (contentTypeFor (extOf finalKey))) ∧
    (∀ url resp, env.cloudFrontAvailable = true →
      (extOf finalKey = "m3u8" ∨ extOf finalKey = "ts" ∨ extOf finalKey = "mp4") →
      env.cfSign finalKey = .ok url → env.cfFetch url = .ok resp →
      resp.hasBody = true →
      streamContent env = .cfRelay resp.status
        (resp.contentType.getD (contentTypeFor (extOf finalKey)))) := by
  have hsc : streamContent env =
      streamCfTier env finalKey (extOf finalKey) (contentTypeFor (extOf finalKey)) := by
    simp [streamContent, hkey, hdec]
  refine ⟨?_, ?_, ?_⟩
  · intro hs
    rw [hsc]
    unfold streamCfTier
    split
    · rw [hs]
    · rfl
  · intro url hs hf
    rw [hsc]
    unfold streamCfTier
    split
    · rw [hs]
      simp [hf]
    · rfl
  · intro url resp hcf hext hs hf hb
    rw [hsc]
    unfold streamCfTier
    rw [if_pos ⟨hcf, hext⟩, hs]
    simp [hf, hb]

/-- The CloudFront response of the C6 counterexample: an access-denied 403
that still resolves (node-fetch only rejects on transport failure). -/
def respC6cf : UpstreamResponse :=
  { status := 403, contentType := none, contentRange := none
    contentLength := none, hasBody := true, bodyText := "denied" }

/-- The healthy origin response the S3 tier would have produced. -/
def respC6s3 : UpstreamResponse :=
  { status := 200, contentType := some "video/mp4", contentRange := none
    contentLength := some "10", hasBody := true, bodyText := "" }

/-- C6 counterexample environment: CloudFront configured, signer fine, edge
fetch resolves with a 403, origin perfectly healthy. -/
def envC6x : StreamEnv :=
  { rawKey := "movie.mp4"
    rangeHeader := none
    cloudFrontAvailable := true
    cfSign := fun _ => .ok "cf-url"
    cfFetch := fun _ => .ok respC6cf
    s3Sign := fun _ => .ok (some "s3-url")
    s3Fetch := fun _ => .ok respC6s3 }

/-- Counterexample to C6 as stated: the edge tier's non-2xx response (403)
is relayed straight to the client — the proxy does not fall through to the
origin tier, whose outcome would have been a healthy 200 relay. -/
theorem streamContent_counterexample :
    streamContent envC6x = .cfRelay 403 "video/mp4" ∧
    streamS3Tiers envC6x "movie.mp4" (extOf "movie.mp4")
        (contentTypeFor (extOf "movie.mp4")) =
      .fullRelay 200 (some "10") "video/mp4" := by
  decide

/-- C6 witness environment: the CloudFront signer throws. -/
def envC6w : StreamEnv :=
  { rawKey := "movie.mp4"
    rangeHeader := none
    cloudFrontAvailable := true
    cfSign := fun _ => .error ()
    cfFetch := fun _ => .ok respC6cf
    s3Sign := fun _ => .ok (some "s3-url")
    s3Fetch := fun _ => .ok respC6s3 }

/-- Witness for the amended C6: a signer throw falls through — the route's
outcome is exactly the S3 tiers' outcome. -/
theorem streamContent_tier1_semantics_witness :
    streamContent envC6w = streamS3Tiers envC6w "movie.mp4" (extOf "movie.mp4")
      (contentTypeFor (extOf "movie.mp4")) :=
  (streamContent_tier1_semantics envC6w "movie.mp4" (by decide) (by decide)).1 rfl

/-- Properties of one uppercase hex digit: it is a hex digit, it decodes to
its value, it is ASCII, and it is not a percent sign. -/
theorem hexDigitUpper_spec (k : Nat) (hk : k < 16) :
    isHexDigitChar (hexDigitUpper k) = true ∧
    hexVal (hexDigitUpper k) = k ∧
    (hexDigitUpper k).toNat < 128 ∧
    hexDigitUpper k ≠ '%' := by
  interval_cases k <;> exact ⟨by decide, by decide, by decide, by decide⟩

/-- Unreserved characters are never the percent sign. -/
theorem unreserved_ne_percent (c : Char) (h : isUnreserved c = true) : c ≠ '%' := by
  intro hc
  subst hc
  exact absurd h (by decide)

/-- Unfolding `percentDecodeList` on a non-escape head character. -/
theorem percentDecodeList_cons_ne (c : Char) (rest : List Char) (hc : c ≠ '%') :
    percentDecodeList (c :: rest) =
      (percentDecodeList rest).map (fun t => c :: t) := by
  match rest with
  | [] => simp [percentDecodeList, hc]
  | [h1] => simp [percentDecodeList, hc]
  | h1 :: l1 :: r2 => simp [percentDecodeList, hc]

/-- Unfolding `percentDecodeList` on a well-formed ASCII escape. -/
theorem percentDecodeList_cons_escape (h1 l1 : Char) (r : List Char)
    (hh : isHexDigitChar h1 = true) (hl : isHexDigitChar l1 = true)
    (hn : 16 * hexVal h1 + hexVal l1 < 128) :
    percentDecodeList ('%' :: h1 :: l1 :: r) =
      (percentDecodeList r).map
        (fun t => Char.ofNat (16 * hexVal h1 + hexVal l1) :: t) := by
  simp [percentDecodeList, hh, hl, hn]

/-- Decoding undoes encoding on ASCII character lists. -/
theorem percentDecodeList_encode (l : List Char) (h : ∀ c ∈ l, c.toNat < 128) :
    percentDecodeList (percentEncodeList l) = some l := by
  induction l with
  | nil => rfl
  | cons c rest ih =>
    have hc : c.toNat < 128 := h c (List.mem_cons_self c rest)
    have hrest := ih (fun x hx => h x (List.mem_cons_of_mem c hx))
    show percentDecodeList (percentEncodeChar c ++ percentEncodeList rest) =
      some (c :: rest)
    unfold percentEncodeChar
    split
    · rename_i hun
      have hcp : c ≠ '%' := unreserved_ne_percent c hun
      simp only [List.singleton_append]
      rw [percentDecodeList_cons_ne c _ hcp, hrest]
      rfl
    · have hdiv : c.toNat / 16 < 16 := by omega
      have hmod : c.toNat % 16 < 16 := Nat.mod_lt _ (by norm_num)
      obtain ⟨hh1, hv1, _, _⟩ := hexDigitUpper_spec _ hdiv
      obtain ⟨hh2, hv2, _, _⟩ := hexDigitUpper_spec _ hmod
      simp only [List.cons_append, List.nil_append]
      rw [percentDecodeList_cons_escape _ _ _ hh1 hh2 (by rw [hv1, hv2]; omega)]
      rw [hv1, hv2]
      have hn : 16 * (c.toNat / 16) + c.toNat % 16 = c.toNat :=
        Nat.div_add_mod c.toNat 16
      rw [hn, hrest, Char.ofNat_toNat]
      rfl

/-- Encoding an ASCII list yields an ASCII list. -/
theorem percentEncodeList_ascii (l : List Char) (h : ∀ c ∈ l, c.toNat < 128) :
    ∀ c2 ∈ percentEncodeList l, c2.toNat < 128 := by
  induction l with
  | nil => intro c2 hc2; exact absurd hc2 (List.not_mem_nil c2)
  | cons c rest ih =>
    intro c2 hc2
    have hc : c.toNat < 128 := h c (List.mem_cons_self c rest)
    have hrest := ih (fun x hx => h x (List.mem_cons_of_mem c hx))
    have hc2m : c2 ∈ percentEncodeChar c ∨ c2 ∈ percentEncodeList rest := by
      simpa [percentEncodeList, List.mem_append] using hc2
    rcases hc2m with hm | hm
    · unfold percentEncodeChar at hm
      split at hm
      · rw [List.mem_singleton.mp hm]
        exact hc
      · have hdiv : c.toNat / 16 < 16 := by omega
        have hmod : c.toNat % 16 < 16 := Nat.mod_lt _ (by norm_num)
        obtain ⟨_, _, ha1, _⟩ := hexDigitUpper_spec _ hdiv
        obtain ⟨_, _, ha2, _⟩ := hexDigitUpper_spec _ hmod
        have hm2 : c2 = '%' ∨ c2 = hexDigitUpper (c.toNat / 16) ∨
            c2 = hexDigitUpper (c.toNat % 16) := by
          simpa using hm
        rcases hm2 with hm2 | hm2 | hm2 <;> rw [hm2]
        · decide
        · exact ha1
        · exact ha2
    · exact hrest c2 hm

/-- If an encoded list contains no percent sign, encoding changed nothing. -/
theorem percentEncodeList_no_percent_id (l : List Char)
    (h : (percentEncodeList l).contains '%' = false) :
    percentEncodeList l = l := by
  induction l with
  | nil => rfl
  | cons c rest ih =>
    have hsh : percentEncodeList (c :: rest) =
        percentEncodeChar c ++ percentEncodeList rest := rfl
    by_cases hun : isUnreserved c = true
    · have hcc : percentEncodeChar c = [c] := by
        unfold percentEncodeChar
        rw [if_pos hun]
      rw [hsh, hcc] at h ⊢
      simp only [List.singleton_append, List.contains_cons] at h
      have h2 := (Bool.or_eq_false_iff.mp h).2
      rw [List.singleton_append, ih h2]
    · exfalso
      have hcc : percentEncodeChar c =
          ['%', hexDigitUpper (c.toNat / 16), hexDigitUpper (c.toNat % 16)] := by
        unfold percentEncodeChar
        rw [if_neg hun]
      rw [hsh, hcc] at h
      simp [List.contains_cons] at h

/-- C7 (amended): the stream route performs at most two decode passes and
never loops — the final key is the first or the second decode of the raw
key; a double-encoded ASCII key decodes back to the original; and a
singly-encoded key is returned intact provided the original key contains no
percent sign (when it does, the decoded value still contains `'%'`, so the
route applies the second pass, which can alter the key — see the
counterexample). -/
theorem decodeStreamKey_bounds (k : String) (hascii : ∀ c ∈ k.data, c.toNat < 128) :
    decodeStreamKey (jsEncodeURIComponent (jsEncodeURIComponent k)) = some k ∧
    (k.data.contains '%' = false →
      decodeStreamKey (jsEncodeURIComponent k) = some k) ∧
    (∀ raw fk, decodeStreamKey raw = some fk →
      jsDecodeURIComponent raw = some fk ∨
      ∃ d1, jsDecodeURIComponent raw = some d1 ∧ jsDecodeURIComponent d1 = some fk) := by
  have henc_ascii := percentEncodeList_ascii k.data hascii
  have hdec1 : jsDecodeURIComponent (jsEncodeURIComponent (jsEncodeURIComponent k)) =
      some (jsEncodeURIComponent k) := by
    show (percentDecodeList (percentEncodeList (percentEncodeList k.data))).map
        (fun l => String.mk l) = some (jsEncodeURIComponent k)
    rw [percentDecodeList_encode _ henc_ascii]
    rfl
  have hdec0 : jsDecodeURIComponent (jsEncodeURIComponent k) = some k := by
    show (percentDecodeList (percentEncodeList k.data)).map
        (fun l => String.mk l) = some k
    rw [percentDecodeList_encode _ hascii]
    rfl
  have hunf : ∀ raw d1 : String, jsDecodeURIComponent raw = some d1 →
      decodeStreamKey raw =
        if d1.data.contains '%' = true then jsDecodeURIComponent d1
        else some d1 := by
    intro raw d1 hd
    unfold decodeStreamKey
    rw [hd]
  refine ⟨?_, ?_, ?_⟩
  · rw [hunf _ _ hdec1]
    by_cases hp : (jsEncodeURIComponent k).data.contains '%' = true
    · rw [if_pos hp]
      exact hdec0
    · rw [if_neg hp]
      have hp2 : (percentEncodeList k.data).contains '%' = false := by
        simpa [jsEncodeURIComponent] using hp
      have hid := percentEncodeList_no_percent_id k.data hp2
      show some (String.mk (percentEncodeList k.data)) = some k
      rw [hid]
  · intro hnp
    rw [hunf _ _ hdec0]
    rw [if_neg (by rw [hnp]; simp)]
  · intro raw fk h
    cases hd : jsDecodeURIComponent raw with
    | none =>
      have hnone : decodeStreamKey raw = none := by
        unfold decodeStreamKey
        rw [hd]
      rw [hnone] at h
      exact absurd h (by simp)
    | some d1 =>
      rw [hunf _ _ hd] at h
      by_cases hp : d1.data.contains '%' = true
      · rw [if_pos hp] at h
        exact Or.inr ⟨d1, rfl, h⟩
      · rw [if_neg hp] at h
        exact Or.inl h

/-- Counterexample to C7 as stated: the key `"a%20b"`, encoded exactly
once, arrives as `"a%2520b"`; the first decode pass restores `"a%20b"`,
but since that still contains `'%'` the route decodes again and serves
`"a b"` — the singly-encoded key is not unchanged by the second pass. -/
theorem decodeStreamKey_counterexample :
    jsEncodeURIComponent "a%20b" = "a%2520b" ∧
    decodeStreamKey "a%2520b" = some "a b" ∧
    ("a b" : String) ≠ "a%20b" := by
  decide

/-- Witness for the amended C7: the ASCII key `"my movie.mp4"` (no percent
sign) survives double encoding and, singly encoded, is returned intact. -/
theorem decodeStreamKey_bounds_witness :
    decodeStreamKey (jsEncodeURIComponent (jsEncodeURIComponent "my movie.mp4")) =
      some "my movie.mp4" ∧
    decodeStreamKey (jsEncodeURIComponent "my movie.mp4") = some "my movie.mp4" :=
  ⟨(decodeStreamKey_bounds "my movie.mp4" (by decide)).1,
   (decodeStreamKey_bounds "my movie.mp4" (by decide)).2.1 (by decide)⟩
